import Mathlib

/-!
Verification of the CropCast application (src/cropcast.py) against its
natural-language specification.

The development shallowly embeds the program's logic:

* `CropOverlay.paintEvent` (overlay geometry: scale factors, guide-line
  positions, occlusion rectangles) over `ℤ`, with Python's real division
  modelled by exact rational arithmetic (`ℚ`) and Python's `int(...)`
  truncation by `pyInt`.
* `CropCastApp.build_ffmpeg_command` as a total function producing
  `Option (List String)`, with the filesystem (`Path.exists`) and
  `sys.platform` passed in as parameters.
* `ConversionThread.run`'s terminal reporting as a function of the
  subprocess exit code.
* `CropCastApp.load_settings` / `save_settings` over a typed settings
  document whose fields are all optional, with `QSpinBox.setValue`'s
  clamping to the configured range made explicit.
-/

/-! ## Python primitives -/

/-- Python `int(x)` on a real value: truncation toward zero. -/
def pyInt (q : ℚ) : ℤ := if 0 ≤ q then ⌊q⌋ else -⌊-q⌋

theorem pyInt_of_nonneg {q : ℚ} (h : 0 ≤ q) : pyInt q = ⌊q⌋ := by
  simp [pyInt, h]

theorem pyInt_intCast (z : ℤ) : pyInt (z : ℚ) = z := by
  unfold pyInt
  rcases le_or_lt 0 (z : ℚ) with h | h
  · rw [if_pos h, Int.floor_intCast]
  · rw [if_neg (not_le.mpr h), ← Int.cast_neg, Int.floor_intCast, neg_neg]

theorem pyInt_zero : pyInt 0 = 0 := by
  simpa using pyInt_intCast 0

/-! ## CropOverlay.paintEvent geometry (src/cropcast.py lines 53-102)

The widget state consists of the four crop distances (in original-video
pixels) and the recorded original resolution; `w`/`h` below are the
overlay widget's current width and height (`self.width()`, `self.height()`).
-/

structure CropOverlayState where
  crop_top : ℤ
  crop_bottom : ℤ
  crop_left : ℤ
  crop_right : ℤ
  original_width : ℤ
  original_height : ℤ

/-- `scale_x = w / self.original_width if self.original_width > 0 else 1` -/
def scaleX (s : CropOverlayState) (w : ℤ) : ℚ :=
  if 0 < s.original_width then (w : ℚ) / (s.original_width : ℚ) else 1

/-- `scale_y = h / self.original_height if self.original_height > 0 else 1` -/
def scaleY (s : CropOverlayState) (h : ℤ) : ℚ :=
  if 0 < s.original_height then (h : ℚ) / (s.original_height : ℚ) else 1

/-- `top_pos = int(self.crop_top * scale_y)` -/
def topPos (s : CropOverlayState) (h : ℤ) : ℤ :=
  pyInt ((s.crop_top : ℚ) * scaleY s h)

/-- `bottom_pos = h - int(self.crop_bottom * scale_y)` -/
def bottomPos (s : CropOverlayState) (h : ℤ) : ℤ :=
  h - pyInt ((s.crop_bottom : ℚ) * scaleY s h)

/-- `left_pos = int(self.crop_left * scale_x)` -/
def leftPos (s : CropOverlayState) (w : ℤ) : ℤ :=
  pyInt ((s.crop_left : ℚ) * scaleX s w)

/-- `right_pos = w - int(self.crop_right * scale_x)` -/
def rightPos (s : CropOverlayState) (w : ℤ) : ℤ :=
  w - pyInt ((s.crop_right : ℚ) * scaleX s w)

/-- The top guide line (`painter.drawLine(0, top_pos, w, top_pos)`),
drawn only when `self.crop_top > 0`. -/
def topLine (s : CropOverlayState) (h : ℤ) : Option ℤ :=
  if 0 < s.crop_top then some (topPos s h) else none

/-- The bottom guide line, drawn only when `self.crop_bottom > 0`. -/
def bottomLine (s : CropOverlayState) (h : ℤ) : Option ℤ :=
  if 0 < s.crop_bottom then some (bottomPos s h) else none

/-- The left guide line, drawn only when `self.crop_left > 0`. -/
def leftLine (s : CropOverlayState) (w : ℤ) : Option ℤ :=
  if 0 < s.crop_left then some (leftPos s w) else none

/-- The right guide line, drawn only when `self.crop_right > 0`. -/
def rightLine (s : CropOverlayState) (w : ℤ) : Option ℤ :=
  if 0 < s.crop_right then some (rightPos s w) else none

/-- `top_pos = int(self.crop_top * scale_y) if self.crop_top > 0 else 0`
(the vertical start of the side occlusion rectangles, lines 95 and 100). -/
def tpEff (s : CropOverlayState) (h : ℤ) : ℤ :=
  if 0 < s.crop_top then topPos s h else 0

/-- `bottom_pos = h - int(self.crop_bottom * scale_y) if self.crop_bottom > 0
else h` (the vertical end of the side occlusion rectangles, lines 96 and 101). -/
def bpEff (s : CropOverlayState) (h : ℤ) : ℤ :=
  if 0 < s.crop_bottom then bottomPos s h else h

/-- Horizontal start of the uncropped center tile. -/
def lpEff (s : CropOverlayState) (w : ℤ) : ℤ :=
  if 0 < s.crop_left then leftPos s w else 0

/-- Horizontal end of the uncropped center tile. -/
def rpEff (s : CropOverlayState) (w : ℤ) : ℤ :=
  if 0 < s.crop_right then rightPos s w else w

/-- Pixel membership of the top occlusion rectangle
`painter.fillRect(0, 0, w, top_pos)` (drawn only when `crop_top > 0`). -/
def inTopRect (s : CropOverlayState) (w h x y : ℤ) : Prop :=
  0 < s.crop_top ∧ 0 ≤ x ∧ x < w ∧ 0 ≤ y ∧ y < topPos s h

/-- Pixel membership of the bottom occlusion rectangle
`painter.fillRect(0, bottom_pos, w, h - bottom_pos)`. -/
def inBottomRect (s : CropOverlayState) (w h x y : ℤ) : Prop :=
  0 < s.crop_bottom ∧ 0 ≤ x ∧ x < w ∧ bottomPos s h ≤ y ∧ y < h

/-- Pixel membership of the left occlusion rectangle
`painter.fillRect(0, top_pos, left_pos, bottom_pos - top_pos)`. -/
def inLeftRect (s : CropOverlayState) (w h x y : ℤ) : Prop :=
  0 < s.crop_left ∧ 0 ≤ x ∧ x < leftPos s w ∧ tpEff s h ≤ y ∧ y < bpEff s h

/-- Pixel membership of the right occlusion rectangle
`painter.fillRect(right_pos, top_pos, w - right_pos, bottom_pos - top_pos)`. -/
def inRightRect (s : CropOverlayState) (w h x y : ℤ) : Prop :=
  0 < s.crop_right ∧ rightPos s w ≤ x ∧ x < w ∧ tpEff s h ≤ y ∧ y < bpEff s h

/-- Pixel membership of the uncropped center tile: the part of the preview
surface occluded by no rectangle. -/
def inCenterTile (s : CropOverlayState) (w h x y : ℤ) : Prop :=
  lpEff s w ≤ x ∧ x < rpEff s w ∧ tpEff s h ≤ y ∧ y < bpEff s h

/-! ### Arithmetic facts about the mapped offsets -/

theorem pyInt_scale_nonneg {d ow dim : ℤ} (how : 0 < ow) (hd : 0 ≤ d)
    (hdim : 0 ≤ dim) : 0 ≤ pyInt ((d : ℚ) * ((dim : ℚ) / (ow : ℚ))) := by
  have hq : (0 : ℚ) ≤ (d : ℚ) * ((dim : ℚ) / (ow : ℚ)) := by
    apply mul_nonneg
    · exact_mod_cast hd
    · apply div_nonneg
      · exact_mod_cast hdim
      · exact_mod_cast how.le
  rw [pyInt_of_nonneg hq]
  positivity

theorem pyInt_scale_sum_le {a b ow dim : ℤ} (how : 0 < ow) (ha : 0 ≤ a)
    (hb : 0 ≤ b) (hab : a + b < ow) (hdim : 0 ≤ dim) :
    pyInt ((a : ℚ) * ((dim : ℚ) / (ow : ℚ)))
      + pyInt ((b : ℚ) * ((dim : ℚ) / (ow : ℚ))) ≤ dim := by
  have hsc : (0 : ℚ) ≤ (dim : ℚ) / (ow : ℚ) := by
    apply div_nonneg
    · exact_mod_cast hdim
    · exact_mod_cast how.le
  have hqa : (0 : ℚ) ≤ (a : ℚ) * ((dim : ℚ) / (ow : ℚ)) :=
    mul_nonneg (by exact_mod_cast ha) hsc
  have hqb : (0 : ℚ) ≤ (b : ℚ) * ((dim : ℚ) / (ow : ℚ)) :=
    mul_nonneg (by exact_mod_cast hb) hsc
  rw [pyInt_of_nonneg hqa, pyInt_of_nonneg hqb]
  have hfl : ⌊(a : ℚ) * ((dim : ℚ) / (ow : ℚ))⌋
      + ⌊(b : ℚ) * ((dim : ℚ) / (ow : ℚ))⌋
      ≤ ⌊(a : ℚ) * ((dim : ℚ) / (ow : ℚ)) + (b : ℚ) * ((dim : ℚ) / (ow : ℚ))⌋ := by
    apply Int.le_floor.mpr
    push_cast
    have h1 := Int.floor_le ((a : ℚ) * ((dim : ℚ) / (ow : ℚ)))
    have h2 := Int.floor_le ((b : ℚ) * ((dim : ℚ) / (ow : ℚ)))
    linarith
  have hsum : (a : ℚ) * ((dim : ℚ) / (ow : ℚ)) + (b : ℚ) * ((dim : ℚ) / (ow : ℚ))
      ≤ (dim : ℚ) := by
    have howq : (0 : ℚ) < (ow : ℚ) := by exact_mod_cast how
    have h1 : (a : ℚ) + (b : ℚ) ≤ (ow : ℚ) := by exact_mod_cast hab.le
    have h2 : (a : ℚ) * ((dim : ℚ) / (ow : ℚ)) + (b : ℚ) * ((dim : ℚ) / (ow : ℚ))
        = ((a : ℚ) + (b : ℚ)) * ((dim : ℚ) / (ow : ℚ)) := by ring
    rw [h2]
    calc ((a : ℚ) + (b : ℚ)) * ((dim : ℚ) / (ow : ℚ))
        ≤ (ow : ℚ) * ((dim : ℚ) / (ow : ℚ)) := mul_le_mul_of_nonneg_right h1 hsc
      _ = (dim : ℚ) := by field_simp
  calc ⌊(a : ℚ) * ((dim : ℚ) / (ow : ℚ))⌋ + ⌊(b : ℚ) * ((dim : ℚ) / (ow : ℚ))⌋
      ≤ ⌊(a : ℚ) * ((dim : ℚ) / (ow : ℚ)) + (b : ℚ) * ((dim : ℚ) / (ow : ℚ))⌋ := hfl
    _ ≤ ⌊(dim : ℚ)⌋ := Int.floor_mono hsum
    _ = dim := Int.floor_intCast dim

theorem pyInt_scale_of_zero {ow dim : ℤ} :
    pyInt ((0 : ℚ) * ((dim : ℚ) / (ow : ℚ))) = 0 := by
  rw [zero_mul, pyInt_zero]

/-- Monotonicity of the mapped offset in the crop distance. -/
theorem pyInt_scale_mono {d e ow dim : ℤ} (how : 0 < ow) (hdim : 0 ≤ dim)
    (hd : 0 ≤ d) (hde : d ≤ e) :
    pyInt ((d : ℚ) * ((dim : ℚ) / (ow : ℚ)))
      ≤ pyInt ((e : ℚ) * ((dim : ℚ) / (ow : ℚ))) := by
  have hsc : (0 : ℚ) ≤ (dim : ℚ) / (ow : ℚ) := by
    apply div_nonneg
    · exact_mod_cast hdim
    · exact_mod_cast how.le
  have hqd : (0 : ℚ) ≤ (d : ℚ) * ((dim : ℚ) / (ow : ℚ)) :=
    mul_nonneg (by exact_mod_cast hd) hsc
  have hqe : (0 : ℚ) ≤ (e : ℚ) * ((dim : ℚ) / (ow : ℚ)) := by
    apply mul_nonneg _ hsc
    exact_mod_cast hd.trans hde
  rw [pyInt_of_nonneg hqd, pyInt_of_nonneg hqe]
  apply Int.floor_mono
  apply mul_le_mul_of_nonneg_right _ hsc
  exact_mod_cast hde

/-! ## Claim C1 -/

/-- C1: for every crop distance and original resolution `W,H` and preview
size `w,h`, the overlay maps a horizontal crop distance `d` to
`int(d * (w / W))` preview pixels and a vertical one to `int(d * (h / H))`;
when the original dimension is `≤ 0` the scale factor for that axis is `1`
(so the mapped offset is the distance itself); in particular for crop
`{top=10, bottom=0, left=20, right=0}`, original `640x480` and preview
`320x240` the mapped top offset is `5`, the mapped left offset is `10`,
and no bottom or right guide line is produced. -/
theorem overlay_scales_crop_distances (s : CropOverlayState) (w h : ℤ) :
    (0 < s.original_width →
      leftPos s w = pyInt ((s.crop_left : ℚ) * ((w : ℚ) / (s.original_width : ℚ)))
      ∧ rightPos s w
        = w - pyInt ((s.crop_right : ℚ) * ((w : ℚ) / (s.original_width : ℚ))))
    ∧ (s.original_width ≤ 0 →
      leftPos s w = s.crop_left ∧ rightPos s w = w - s.crop_right)
    ∧ (0 < s.original_height →
      topPos s h = pyInt ((s.crop_top : ℚ) * ((h : ℚ) / (s.original_height : ℚ)))
      ∧ bottomPos s h
        = h - pyInt ((s.crop_bottom : ℚ) * ((h : ℚ) / (s.original_height : ℚ))))
    ∧ (s.original_height ≤ 0 →
      topPos s h = s.crop_top ∧ bottomPos s h = h - s.crop_bottom)
    ∧ (topLine ⟨10, 0, 20, 0, 640, 480⟩ 240 = some 5
      ∧ leftLine ⟨10, 0, 20, 0, 640, 480⟩ 320 = some 10
      ∧ bottomLine ⟨10, 0, 20, 0, 640, 480⟩ 240 = none
      ∧ rightLine ⟨10, 0, 20, 0, 640, 480⟩ 320 = none) := by
  refine ⟨fun hW => ?_, fun hW => ?_, fun hH => ?_, fun hH => ?_, ?_⟩
  · rw [leftPos, rightPos, scaleX, if_pos hW]
    exact ⟨rfl, rfl⟩
  · rw [leftPos, rightPos, scaleX, if_neg (not_lt.mpr hW), mul_one, mul_one,
      pyInt_intCast, pyInt_intCast]
    exact ⟨rfl, rfl⟩
  · rw [topPos, bottomPos, scaleY, if_pos hH]
    exact ⟨rfl, rfl⟩
  · rw [topPos, bottomPos, scaleY, if_neg (not_lt.mpr hH), mul_one, mul_one,
      pyInt_intCast, pyInt_intCast]
    exact ⟨rfl, rfl⟩
  · refine ⟨?_, ?_, ?_, ?_⟩
    · rw [topLine, if_pos (by norm_num), topPos, scaleY, if_pos (by norm_num),
        pyInt_of_nonneg (by norm_num)]
      norm_num
    · rw [leftLine, if_pos (by norm_num), leftPos, scaleX, if_pos (by norm_num),
        pyInt_of_nonneg (by norm_num)]
      norm_num
    · rw [bottomLine, if_neg (by norm_num)]
    · rw [rightLine, if_neg (by norm_num)]

/-- Witness for C1 at the spec's example input. -/
theorem overlay_scales_crop_distances_witness :
    0 < (640 : ℤ)
    ∧ leftPos ⟨10, 0, 20, 0, 640, 480⟩ 320
        = pyInt ((20 : ℚ) * ((320 : ℚ) / (640 : ℚ))) :=
  ⟨by decide,
    ((overlay_scales_crop_distances ⟨10, 0, 20, 0, 640, 480⟩ 320 240).1
      (by decide)).1⟩

/-! ## Claim C2 -/

/-- C2: for every `CropSpec` with `top+bottom < H` and `left+right < W`
(`W,H` the original resolution, both positive) and every preview surface
`w × h`, the occlusion rectangles drawn by the overlay together with the
uncropped center tile exactly partition the preview surface (they cover it
and no two of them overlap), and a side with zero crop distance contributes
no rectangle. -/
theorem overlay_occlusion_partition (s : CropOverlayState) (w h : ℤ)
    (hW : 0 < s.original_width) (hH : 0 < s.original_height)
    (ht : 0 ≤ s.crop_top) (hb : 0 ≤ s.crop_bottom)
    (hl : 0 ≤ s.crop_left) (hr : 0 ≤ s.crop_right)
    (htb : s.crop_top + s.crop_bottom < s.original_height)
    (hlr : s.crop_left + s.crop_right < s.original_width)
    (hw : 0 ≤ w) (hh : 0 ≤ h) (x y : ℤ) :
    ((0 ≤ x ∧ x < w ∧ 0 ≤ y ∧ y < h) ↔
      (inTopRect s w h x y ∨ inBottomRect s w h x y ∨ inLeftRect s w h x y
        ∨ inRightRect s w h x y ∨ inCenterTile s w h x y))
    ∧ ¬(inTopRect s w h x y ∧ inBottomRect s w h x y)
    ∧ ¬(inTopRect s w h x y ∧ inLeftRect s w h x y)
    ∧ ¬(inTopRect s w h x y ∧ inRightRect s w h x y)
    ∧ ¬(inTopRect s w h x y ∧ inCenterTile s w h x y)
    ∧ ¬(inBottomRect s w h x y ∧ inLeftRect s w h x y)
    ∧ ¬(inBottomRect s w h x y ∧ inRightRect s w h x y)
    ∧ ¬(inBottomRect s w h x y ∧ inCenterTile s w h x y)
    ∧ ¬(inLeftRect s w h x y ∧ inRightRect s w h x y)
    ∧ ¬(inLeftRect s w h x y ∧ inCenterTile s w h x y)
    ∧ ¬(inRightRect s w h x y ∧ inCenterTile s w h x y)
    ∧ (s.crop_top = 0 → ¬inTopRect s w h x y)
    ∧ (s.crop_bottom = 0 → ¬inBottomRect s w h x y)
    ∧ (s.crop_left = 0 → ¬inLeftRect s w h x y)
    ∧ (s.crop_right = 0 → ¬inRightRect s w h x y) := by
  have hsy : scaleY s h = (h : ℚ) / (s.original_height : ℚ) := by
    rw [scaleY, if_pos hH]
  have hsx : scaleX s w = (w : ℚ) / (s.original_width : ℚ) := by
    rw [scaleX, if_pos hW]
  have hA0 : 0 ≤ pyInt ((s.crop_top : ℚ) * scaleY s h) := by
    rw [hsy]; exact pyInt_scale_nonneg hH ht hh
  have hB0 : 0 ≤ pyInt ((s.crop_bottom : ℚ) * scaleY s h) := by
    rw [hsy]; exact pyInt_scale_nonneg hH hb hh
  have hC0 : 0 ≤ pyInt ((s.crop_left : ℚ) * scaleX s w) := by
    rw [hsx]; exact pyInt_scale_nonneg hW hl hw
  have hD0 : 0 ≤ pyInt ((s.crop_right : ℚ) * scaleX s w) := by
    rw [hsx]; exact pyInt_scale_nonneg hW hr hw
  have hAB : pyInt ((s.crop_top : ℚ) * scaleY s h)
      + pyInt ((s.crop_bottom : ℚ) * scaleY s h) ≤ h := by
    rw [hsy]; exact pyInt_scale_sum_le hH ht hb htb hh
  have hCD : pyInt ((s.crop_left : ℚ) * scaleX s w)
      + pyInt ((s.crop_right : ℚ) * scaleX s w) ≤ w := by
    rw [hsx]; exact pyInt_scale_sum_le hW hl hr hlr hw
  have htz : s.crop_top = 0 → pyInt ((s.crop_top : ℚ) * scaleY s h) = 0 := by
    intro e; rw [e]; push_cast; rw [zero_mul, pyInt_zero]
  have hbz : s.crop_bottom = 0 → pyInt ((s.crop_bottom : ℚ) * scaleY s h) = 0 := by
    intro e; rw [e]; push_cast; rw [zero_mul, pyInt_zero]
  have hlz : s.crop_left = 0 → pyInt ((s.crop_left : ℚ) * scaleX s w) = 0 := by
    intro e; rw [e]; push_cast; rw [zero_mul, pyInt_zero]
  have hrz : s.crop_right = 0 → pyInt ((s.crop_right : ℚ) * scaleX s w) = 0 := by
    intro e; rw [e]; push_cast; rw [zero_mul, pyInt_zero]
  simp only [inTopRect, inBottomRect, inLeftRect, inRightRect, inCenterTile,
    tpEff, bpEff, lpEff, rpEff, topPos, bottomPos, leftPos, rightPos] at *
  set A := pyInt ((s.crop_top : ℚ) * scaleY s h) with hAdef
  set B := pyInt ((s.crop_bottom : ℚ) * scaleY s h) with hBdef
  set C := pyInt ((s.crop_left : ℚ) * scaleX s w) with hCdef
  set D := pyInt ((s.crop_right : ℚ) * scaleX s w) with hDdef
  split_ifs with c1 c2 c3 c4 <;>
    [skip; skip; skip; skip; skip; skip; skip; skip; skip; skip; skip; skip;
      skip; skip; skip; skip] <;>
  · try have e1 : A = 0 := htz (by omega)
    try have e2 : B = 0 := hbz (by omega)
    try have e3 : C = 0 := hlz (by omega)
    try have e4 : D = 0 := hrz (by omega)
    omega

/-- Witness for C2 at a concrete state
(crop 10/20/30/40, original 640x480, preview 320x240, pixel (5,3)). -/
theorem overlay_occlusion_partition_witness :
    (0 < (640 : ℤ) ∧ (10 : ℤ) + 20 < 480 ∧ (30 : ℤ) + 40 < 640)
    ∧ ((0 ≤ (5 : ℤ) ∧ (5 : ℤ) < 320 ∧ 0 ≤ (3 : ℤ) ∧ (3 : ℤ) < 240) ↔
      (inTopRect ⟨10, 20, 30, 40, 640, 480⟩ 320 240 5 3
        ∨ inBottomRect ⟨10, 20, 30, 40, 640, 480⟩ 320 240 5 3
        ∨ inLeftRect ⟨10, 20, 30, 40, 640, 480⟩ 320 240 5 3
        ∨ inRightRect ⟨10, 20, 30, 40, 640, 480⟩ 320 240 5 3
        ∨ inCenterTile ⟨10, 20, 30, 40, 640, 480⟩ 320 240 5 3)) :=
  ⟨⟨by decide, by decide, by decide⟩,
    (overlay_occlusion_partition ⟨10, 20, 30, 40, 640, 480⟩ 320 240
      (by decide) (by decide) (by decide) (by decide) (by decide) (by decide)
      (by decide) (by decide) (by decide) (by decide) 5 3).1⟩

/-! ## Claim C10 -/

/-- C10: for fixed positive original resolution and preview size, the
overlay's mapped positions are monotone in the crop distances: the top and
left guide positions are non-decreasing in `crop_top` / `crop_left`, and
the bottom and right positions are non-increasing in `crop_bottom` /
`crop_right`. -/
theorem mapped_positions_monotone (s1 s2 : CropOverlayState) (w h : ℤ)
    (hrw : s1.original_width = s2.original_width)
    (hrh : s1.original_height = s2.original_height)
    (hW : 0 < s1.original_width) (hH : 0 < s1.original_height)
    (hw : 0 < w) (hh : 0 < h) :
    (0 ≤ s1.crop_top → s1.crop_top ≤ s2.crop_top → topPos s1 h ≤ topPos s2 h)
    ∧ (0 ≤ s1.crop_bottom → s1.crop_bottom ≤ s2.crop_bottom →
        bottomPos s2 h ≤ bottomPos s1 h)
    ∧ (0 ≤ s1.crop_left → s1.crop_left ≤ s2.crop_left →
        leftPos s1 w ≤ leftPos s2 w)
    ∧ (0 ≤ s1.crop_right → s1.crop_right ≤ s2.crop_right →
        rightPos s2 w ≤ rightPos s1 w) := by
  have hsy1 : scaleY s1 h = (h : ℚ) / (s1.original_height : ℚ) := by
    rw [scaleY, if_pos hH]
  have hsy2 : scaleY s2 h = (h : ℚ) / (s1.original_height : ℚ) := by
    rw [scaleY, if_pos (hrh ▸ hH), hrh]
  have hsx1 : scaleX s1 w = (w : ℚ) / (s1.original_width : ℚ) := by
    rw [scaleX, if_pos hW]
  have hsx2 : scaleX s2 w = (w : ℚ) / (s1.original_width : ℚ) := by
    rw [scaleX, if_pos (hrw ▸ hW), hrw]
  refine ⟨fun h0 hle => ?_, fun h0 hle => ?_, fun h0 hle => ?_, fun h0 hle => ?_⟩
  · rw [topPos, topPos, hsy1, hsy2]
    exact pyInt_scale_mono hH hh.le h0 hle
  · rw [bottomPos, bottomPos, hsy1, hsy2]
    have := pyInt_scale_mono hH hh.le h0 hle
    omega
  · rw [leftPos, leftPos, hsx1, hsx2]
    exact pyInt_scale_mono hW hw.le h0 hle
  · rw [rightPos, rightPos, hsx1, hsx2]
    have := pyInt_scale_mono hW hw.le h0 hle
    omega

/-- Witness for C10 at concrete states (top 10 vs 40, original 640x480,
preview 320x240). -/
theorem mapped_positions_monotone_witness :
    0 < (640 : ℤ) ∧ (10 : ℤ) ≤ 40
    ∧ topPos ⟨10, 0, 0, 0, 640, 480⟩ 240 ≤ topPos ⟨40, 0, 0, 0, 640, 480⟩ 240 :=
  ⟨by decide, by decide,
    (mapped_positions_monotone ⟨10, 0, 0, 0, 640, 480⟩ ⟨40, 0, 0, 0, 640, 480⟩
      320 240 (by decide) (by decide) (by decide) (by decide) (by decide)
      (by decide)).1 (by decide) (by decide)⟩

/-! ## String primitives used by the command builder

Python's `str.startswith` is list-structural on characters; `str.lower`
lowercases ASCII letters; `str(n)` for a non-negative int is the decimal
representation, which coincides with Lean's `Nat.repr`.
-/

/-- `s.startswith(pat)` on character lists. -/
def listStartsWith : List Char → List Char → Bool
  | _, [] => true
  | [], _ :: _ => false
  | c :: cs, d :: ds => c = d && listStartsWith cs ds

/-- Python `s.startswith(pat)`. -/
def strStarts (s pat : String) : Bool :=
  listStartsWith s.data pat.data

/-- ASCII lowercasing of one character (the fragment of Python `str.lower`
relevant to the codec names used by the application). -/
def charLower (c : Char) : Char :=
  if 'A' ≤ c ∧ c ≤ 'Z' then Char.ofNat (c.toNat + 32) else c

/-- Python `s.lower()` restricted to ASCII strings. -/
def strLower (s : String) : String := ⟨s.data.map charLower⟩

/-! ### Decimal representations are digit strings -/

theorem toDigitsCore_digits (fuel n : ℕ) (ds : List Char)
    (hds : ∀ c ∈ ds, c.isDigit = true) :
    ∀ c ∈ Nat.toDigitsCore 10 fuel n ds, c.isDigit = true := by
  induction fuel generalizing n ds with
  | zero => simpa [Nat.toDigitsCore] using hds
  | succ fuel ih =>
    simp only [Nat.toDigitsCore]
    split
    · intro c hc
      rcases List.mem_cons.mp hc with h | h
      · subst h
        have h10 : n % 10 < 10 := Nat.mod_lt _ (by omega)
        interval_cases h : (n % 10) <;> decide
      · exact hds c h
    · apply ih
      intro c hc
      rcases List.mem_cons.mp hc with h | h
      · subst h
        have h10 : n % 10 < 10 := Nat.mod_lt _ (by omega)
        interval_cases h : (n % 10) <;> decide
      · exact hds c h

theorem toDigitsCore_ne_nil (fuel n : ℕ) (ds : List Char) :
    Nat.toDigitsCore 10 (fuel + 1) n ds ≠ [] := by
  induction fuel generalizing n ds with
  | zero =>
    simp only [Nat.toDigitsCore]
    split <;> simp
  | succ fuel ih =>
    simp only [Nat.toDigitsCore]
    split
    · simp
    · exact ih _ _

/-- The decimal representation of a natural number is a nonempty string of
digit characters. -/
theorem repr_head_digit (n : ℕ) :
    ∃ c t, (Nat.repr n).data = c :: t ∧ c.isDigit = true := by
  have hne : (Nat.toDigits 10 n) ≠ [] := toDigitsCore_ne_nil n n []
  have hdig : ∀ c ∈ Nat.toDigits 10 n, c.isDigit = true :=
    toDigitsCore_digits (n + 1) n [] (by simp)
  rcases h : Nat.toDigits 10 n with _ | ⟨c, t⟩
  · exact absurd h hne
  · refine ⟨c, t, ?_, ?_⟩
    · show (Nat.toDigits 10 n).asString.data = c :: t
      rw [h]; rfl
    · exact hdig c (h ▸ List.mem_cons_self c t)

/-- A decimal representation never equals a string starting with a
non-digit character. -/
theorem repr_ne_of_head (n : ℕ) (t : String) (c0 : Char) (l0 : List Char)
    (ht : t.data = c0 :: l0) (hc : c0.isDigit = false) : Nat.repr n ≠ t := by
  obtain ⟨c, l, hd, hdig⟩ := repr_head_digit n
  intro he
  rw [he, ht] at hd
  have hcc : c0 = c := by
    have := congrArg List.head? hd
    simpa using this
  rw [hcc, hdig] at hc
  exact absurd hc (by simp)

/-- A decimal representation with a suffix appended never equals a string
starting with a non-digit character. -/
theorem repr_append_ne_of_head (n : ℕ) (suf t : String) (c0 : Char)
    (l0 : List Char) (ht : t.data = c0 :: l0) (hc : c0.isDigit = false) :
    Nat.repr n ++ suf ≠ t := by
  obtain ⟨c, l, hd, hdig⟩ := repr_head_digit n
  intro he
  have hdata : (Nat.repr n ++ suf).data = (Nat.repr n).data ++ suf.data := rfl
  rw [he, ht] at hdata
  rw [hd] at hdata
  have hcc : c0 = c := by
    have := congrArg List.head? hdata
    simpa using this
  rw [hcc, hdig] at hc
  exact absurd hc (by simp)

/-! ## Paths (the fragment of `pathlib` used by the builder) -/

theorem str_data_append (a b : String) : (a ++ b).data = a.data ++ b.data := rfl

/-- Split a character list at every occurrence of `sep`. -/
def splitOnChar (sep : Char) : List Char → List (List Char)
  | [] => [[]]
  | c :: cs =>
    let r := splitOnChar sep cs
    if c = sep then [] :: r else (c :: r.headD []) :: r.tail

/-- Join character-list segments with `'.'`. -/
def joinDots : List (List Char) → List Char
  | [] => []
  | [x] => x
  | x :: y :: rest => x ++ '.' :: joinDots (y :: rest)

/-- `Path(p).stem`: the final path component without its last suffix
(a leading dot, as in `.bashrc`, does not start a suffix). -/
def pathStem (p : String) : String :=
  let comps := (splitOnChar '/' p.data).filter (fun c => c ≠ [])
  let name := comps.getLastD []
  let parts := splitOnChar '.' name
  if 2 ≤ parts.length ∧ parts.headD [] ≠ [] then ⟨joinDots parts.dropLast⟩
  else ⟨name⟩

/-- `str(Path(dir) / name)`. -/
def pathJoin (dir name : String) : String :=
  if dir.data = [] then name
  else if dir.data.getLast? = some '/' then ⟨dir.data ++ name.data⟩
  else ⟨dir.data ++ '/' :: name.data⟩

/-! ## CropCastApp.build_ffmpeg_command (src/cropcast.py lines 819-892)

The UI state read by the builder: the selected source, the four crop spin
boxes, the codec combo boxes, the quality and bitrate spin boxes and the
output folder.  `sys.platform` and `Path.exists` are passed as parameters.
-/

structure AppState where
  current_source : String
  crop_top : ℕ
  crop_bottom : ℕ
  crop_left : ℕ
  crop_right : ℕ
  video_codec : String
  audio_codec : String
  quality : ℕ
  bitrate : ℕ
  output_path : String

/-- `self.current_source.startswith(('video=', '/dev/'))` (line 823). -/
def isDeviceSource (src : String) : Bool :=
  strStarts src "video=" || strStarts src "/dev/"

/-- The input section of the command (lines 826-835): device syntax per
platform, otherwise the file path after an existence check. -/
def inputArgs (platform src : String) (fileOnDisk : String → Bool) :
    Option (List String) :=
  if strStarts platform "linux" && strStarts src "/dev/" then
    some ["-f", "v4l2", "-i", src]
  else if strStarts platform "win" && strStarts src "video=" then
    some ["-f", "dshow", "-i", src]
  else if fileOnDisk src then some ["-i", src]
  else none

/-- `f"crop=iw-{crop_left}-{crop_right}:ih-{crop_top}-{crop_bottom}:{crop_left}:{crop_top}"`
(line 844). -/
def cropFilterStr (s : AppState) : String :=
  "crop=iw-" ++ (Nat.repr s.crop_left ++ ("-" ++ (Nat.repr s.crop_right
    ++ (":ih-" ++ (Nat.repr s.crop_top ++ ("-" ++ (Nat.repr s.crop_bottom
    ++ (":" ++ (Nat.repr s.crop_left ++ (":" ++ Nat.repr s.crop_top))))))))))

/-- The crop-filter section (lines 843-845): present exactly when
`any([crop_top, crop_bottom, crop_left, crop_right])`. -/
def cropArgs (s : AppState) : List String :=
  if s.crop_top ≠ 0 ∨ s.crop_bottom ≠ 0 ∨ s.crop_left ≠ 0 ∨ s.crop_right ≠ 0
  then ["-vf", cropFilterStr s] else []

/-- The video-codec section (lines 848-855). -/
def videoCodecArgs (s : AppState) : List String :=
  if strLower s.video_codec = "vp9" then
    ["-c:v", "libvpx-vp9", "-row-mt", "1", "-tile-columns", "2"]
  else ["-c:v", "libvpx"]

/-- The rate-control section (lines 858-864). -/
def rateArgs (s : AppState) : List String :=
  if 0 < s.bitrate then ["-b:v", Nat.repr s.bitrate ++ "k"]
  else ["-crf", Nat.repr s.quality]
    ++ (if strLower s.video_codec = "vp9" then ["-b:v", "0"] else [])

/-- The audio-codec section (lines 867-871). -/
def audioArgs (s : AppState) : List String :=
  if strLower s.audio_codec = "opus" then ["-c:a", "libopus", "-b:a", "128k"]
  else ["-c:a", "libvorbis", "-b:a", "128k"]

/-- The device duration cap (lines 878-880). -/
def durationArgs (s : AppState) : List String :=
  if isDeviceSource s.current_source then ["-t", "30"] else []

/-- The output file path (lines 883-890). -/
def outputFileArg (s : AppState) : String :=
  pathJoin s.output_path
    ((if isDeviceSource s.current_source then "capture"
      else pathStem s.current_source) ++ "_cropped.webm")

/-- `CropCastApp.build_ffmpeg_command`: `None` exactly when the input
section rejects the source, otherwise the concatenated argument list. -/
def build_ffmpeg_command (platform : String) (fileOnDisk : String → Bool)
    (s : AppState) : Option (List String) :=
  match inputArgs platform s.current_source fileOnDisk with
  | none => none
  | some ia =>
      some (["ffmpeg", "-y"] ++ ia ++ cropArgs s ++ videoCodecArgs s
        ++ rateArgs s ++ audioArgs s ++ ["-f", "webm"] ++ durationArgs s
        ++ [outputFileArg s])

theorem build_some_eq {platform : String} {fe : String → Bool} {s : AppState}
    {cmd : List String} (hb : build_ffmpeg_command platform fe s = some cmd) :
    ∃ ia, inputArgs platform s.current_source fe = some ia ∧
      cmd = ["ffmpeg", "-y"] ++ ia ++ cropArgs s ++ videoCodecArgs s
        ++ rateArgs s ++ audioArgs s ++ ["-f", "webm"] ++ durationArgs s
        ++ [outputFileArg s] := by
  unfold build_ffmpeg_command at hb
  cases hi : inputArgs platform s.current_source fe with
  | none => rw [hi] at hb; exact absurd hb (by simp)
  | some ia =>
      rw [hi] at hb
      exact ⟨ia, rfl, (Option.some.inj hb).symm⟩

theorem inputArgs_cases {platform src : String} {fe : String → Bool}
    {ia : List String} (h : inputArgs platform src fe = some ia) :
    ia = ["-f", "v4l2", "-i", src] ∨ ia = ["-f", "dshow", "-i", src]
      ∨ ia = ["-i", src] := by
  unfold inputArgs at h
  split_ifs at h <;> simp_all

theorem not_mem_inputArgs {platform src : String} {fe : String → Bool}
    {ia : List String} {f : String} (h : inputArgs platform src fe = some ia)
    (h1 : f ≠ "-f") (h2 : f ≠ "v4l2") (h3 : f ≠ "dshow") (h4 : f ≠ "-i")
    (h5 : f ≠ src) : f ∉ ia := by
  rcases inputArgs_cases h with rfl | rfl | rfl <;> simp_all

/-! ### Occurrence of a flag/value pair in an argument list -/

/-- `adjPair a x l`: the element `x` appears immediately after an
occurrence of `a` in `l` (i.e. the command contains the flag `a` with
argument `x`). -/
def adjPair (a x : String) (l : List String) : Prop :=
  ∃ p q, l = p ++ a :: x :: q

theorem adjPair_mem {a x : String} {l : List String} (h : adjPair a x l) :
    a ∈ l := by
  obtain ⟨p, q, rfl⟩ := h
  exact List.mem_append_right p (List.mem_cons_self a _)

theorem not_adjPair_of_not_mem {a x : String} {l : List String}
    (h : a ∉ l) : ¬adjPair a x l :=
  fun hp => h (adjPair_mem hp)

theorem adjPair_unique {a x y : String} {A B : List String}
    (hA : a ∉ A) (hB : a ∉ B) (hy : y ≠ a) :
    adjPair a x (A ++ a :: y :: B) → x = y := by
  induction A with
  | nil =>
      rintro ⟨p, q, hpq⟩
      cases p with
      | nil =>
          simp only [List.nil_append] at hpq
          injection hpq with h1 h2
          injection h2 with h3 h4
          exact h3.symm
      | cons e p2 =>
          simp only [List.nil_append, List.cons_append] at hpq
          injection hpq with h1 h2
          have hmem : a ∈ y :: B := by
            rw [h2]
            exact List.mem_append_right p2 (List.mem_cons_self a _)
          rcases List.mem_cons.mp hmem with hm | hm
          · exact absurd hm.symm hy
          · exact absurd hm hB
  | cons e A2 ih =>
      rintro ⟨p, q, hpq⟩
      cases p with
      | nil =>
          simp only [List.cons_append, List.nil_append] at hpq
          injection hpq with h1 h2
          exact absurd (h1 ▸ List.mem_cons_self e A2) hA
      | cons f p2 =>
          simp only [List.cons_append] at hpq
          injection hpq with h1 h2
          exact ih (fun hm => hA (List.mem_cons_of_mem e hm)) ⟨p2, q, h2⟩

/-! ### Disequality helpers for argument strings -/

theorem ne_of_heads (f t : String) (cf ct : Char) (lf lt : List Char)
    (hf : f.data = cf :: lf) (ht : t.data = ct :: lt) (h : cf ≠ ct) : f ≠ t := by
  intro he
  rw [he, ht] at hf
  injection hf with h1 h2
  exact h h1.symm

theorem ne_repr (f : String) {n : ℕ} (c0 : Char) (l0 : List Char)
    (hf : f.data = c0 :: l0) (hc : c0.isDigit = false) : f ≠ Nat.repr n :=
  fun h => repr_ne_of_head n f c0 l0 hf hc h.symm

theorem ne_repr_append (f : String) {n : ℕ} {suf : String} (c0 : Char)
    (l0 : List Char) (hf : f.data = c0 :: l0) (hc : c0.isDigit = false) :
    f ≠ Nat.repr n ++ suf :=
  fun h => repr_append_ne_of_head n suf f c0 l0 hf hc h.symm

theorem cropFilterStr_head (s : AppState) :
    ∃ t, (cropFilterStr s).data = 'c' :: t :=
  ⟨_, rfl⟩

theorem repr_append_k_ne_zero_str (n : ℕ) : Nat.repr n ++ "k" ≠ "0" := by
  obtain ⟨c, t, hd, -⟩ := repr_head_digit n
  intro he
  have hlen := congrArg (fun u => u.data.length) he
  simp only [str_data_append, List.length_append, hd, List.length_cons] at hlen
  have h0 : ("0" : String).data.length = 1 := rfl
  have hk : ("k" : String).data.length = 1 := rfl
  omega

theorem outputFileArg_data_length (s : AppState) :
    13 ≤ (outputFileArg s).data.length := by
  have hsuf : ∀ t : String, (t ++ "_cropped.webm").data.length
      = t.data.length + 13 := by
    intro t
    rw [str_data_append, List.length_append]
    rfl
  unfold outputFileArg pathJoin
  set nm := (if isDeviceSource s.current_source then "capture"
    else pathStem s.current_source) ++ "_cropped.webm" with hnm
  have h13 : 13 ≤ nm.data.length := by
    rw [hnm, hsuf]
    omega
  split_ifs
  · exact h13
  · show 13 ≤ (s.output_path.data ++ nm.data).length
    rw [List.length_append]
    omega
  · show 13 ≤ (s.output_path.data ++ '/' :: nm.data).length
    rw [List.length_append, List.length_cons]
    omega

theorem ne_outputFileArg (s : AppState) (t : String)
    (ht : t.data.length < 13) : t ≠ outputFileArg s := by
  intro h
  have hlen := outputFileArg_data_length s
  rw [← h] at hlen
  omega

/-! ### Which segments contain which flags -/

theorem not_mem_videoCodecArgs (f : String) (s : AppState)
    (h1 : f ≠ "-c:v") (h2 : f ≠ "libvpx-vp9") (h3 : f ≠ "-row-mt")
    (h4 : f ≠ "1") (h5 : f ≠ "-tile-columns") (h6 : f ≠ "2")
    (h7 : f ≠ "libvpx") : f ∉ videoCodecArgs s := by
  unfold videoCodecArgs
  split_ifs <;> simp_all

theorem not_mem_audioArgs (f : String) (s : AppState)
    (h1 : f ≠ "-c:a") (h2 : f ≠ "libopus") (h3 : f ≠ "-b:a") (h4 : f ≠ "128k")
    (h5 : f ≠ "libvorbis") : f ∉ audioArgs s := by
  unfold audioArgs
  split_ifs <;> simp_all

theorem not_mem_durationArgs (f : String) (s : AppState)
    (h1 : f ≠ "-t") (h2 : f ≠ "30") : f ∉ durationArgs s := by
  unfold durationArgs
  split_ifs <;> simp_all

theorem not_mem_rateArgs (f : String) (s : AppState)
    (h1 : f ≠ "-b:v") (h2 : f ≠ Nat.repr s.bitrate ++ "k") (h3 : f ≠ "-crf")
    (h4 : f ≠ Nat.repr s.quality) (h5 : f ≠ "0") : f ∉ rateArgs s := by
  unfold rateArgs
  split_ifs <;> simp_all

theorem not_mem_cropArgs (f : String) (s : AppState)
    (h1 : f ≠ "-vf") (h2 : f ≠ cropFilterStr s) : f ∉ cropArgs s := by
  unfold cropArgs
  split_ifs <;> simp_all

/-! ## Claim C4 -/

/-- C4: the command builder returns null if and only if the current source
is a file path that does not exist on disk; for every existing file and for
every device source it returns an argument list.  (The builder is a total
Lean function, so no exception can escape it; the hypotheses state that a
`/dev/` source only occurs on Linux and a `video=` source only on Windows,
which is how the application's source detection populates them.) -/
theorem build_none_iff_missing_file (platform : String)
    (fileOnDisk : String → Bool) (s : AppState)
    (hdev : strStarts s.current_source "/dev/" = true →
      strStarts platform "linux" = true)
    (hvid : strStarts s.current_source "video=" = true →
      strStarts platform "win" = true) :
    (build_ffmpeg_command platform fileOnDisk s = none ↔
      (isDeviceSource s.current_source = false
        ∧ fileOnDisk s.current_source = false)) := by
  cases hd : strStarts s.current_source "/dev/" <;>
    cases hv : strStarts s.current_source "video=" <;>
    cases hf : fileOnDisk s.current_source <;>
    simp_all [build_ffmpeg_command, inputArgs, isDeviceSource]

/-- A filesystem on which no path exists. -/
def noFileOnDisk : String → Bool := fun _ => false

/-- The application state of the spec's example: the nonexistent source
file `/nonexistent/file.mp4`. -/
def exampleFileState : AppState :=
  ⟨"/nonexistent/file.mp4", 0, 0, 0, 0, "VP9", "Opus", 30, 0, "/home/user"⟩

/-- Witness for C4 at the spec's example input: the builder returns null
for `/nonexistent/file.mp4`. -/
theorem build_none_iff_missing_file_witness :
    (strStarts "/nonexistent/file.mp4" "/dev/" = true →
      strStarts "linux" "linux" = true)
    ∧ (build_ffmpeg_command "linux" noFileOnDisk exampleFileState = none ↔
      (isDeviceSource "/nonexistent/file.mp4" = false
        ∧ noFileOnDisk "/nonexistent/file.mp4" = false)) :=
  ⟨by decide,
    build_none_iff_missing_file "linux" noFileOnDisk exampleFileState
      (by decide) (by decide)⟩

/-! ## Claim C3 -/

/-- C3: the built argument list contains a crop filter if and only if at
least one of the four crop distances is non-zero, and when present the
filter is exactly `crop=iw-L-R:ih-T-B:L:T` for the current left, right,
top, bottom values.  (The hypothesis that the source string is not the
literal `"-vf"` holds for every real source: file paths and device
identifiers never equal a flag.) -/
theorem crop_filter_iff_nonzero (platform : String)
    (fileOnDisk : String → Bool) (s : AppState) (cmd : List String)
    (hb : build_ffmpeg_command platform fileOnDisk s = some cmd)
    (hsrc : s.current_source ≠ "-vf") :
    ("-vf" ∈ cmd ↔
      (s.crop_top ≠ 0 ∨ s.crop_bottom ≠ 0 ∨ s.crop_left ≠ 0 ∨ s.crop_right ≠ 0))
    ∧ ((s.crop_top ≠ 0 ∨ s.crop_bottom ≠ 0 ∨ s.crop_left ≠ 0 ∨ s.crop_right ≠ 0) →
      adjPair "-vf"
        ("crop=iw-" ++ (Nat.repr s.crop_left ++ ("-" ++ (Nat.repr s.crop_right
          ++ (":ih-" ++ (Nat.repr s.crop_top ++ ("-" ++ (Nat.repr s.crop_bottom
          ++ (":" ++ (Nat.repr s.crop_left ++ (":" ++ Nat.repr s.crop_top))))))))))) cmd)
    ∧ (∀ x, adjPair "-vf" x cmd → x = cropFilterStr s) := by
  obtain ⟨ia, hia, rfl⟩ := build_some_eq hb
  obtain ⟨tf, htf⟩ := cropFilterStr_head s
  have hvia : "-vf" ∉ ia :=
    not_mem_inputArgs hia (by simp) (by simp) (by simp) (by simp) (Ne.symm hsrc)
  have hvvc : "-vf" ∉ videoCodecArgs s :=
    not_mem_videoCodecArgs _ _ (by simp) (by simp) (by simp) (by simp) (by simp)
      (by simp) (by simp)
  have hvrt : "-vf" ∉ rateArgs s :=
    not_mem_rateArgs _ _ (by simp)
      (ne_repr_append _ '-' ['v', 'f'] rfl (by decide)) (by simp)
      (ne_repr _ '-' ['v', 'f'] rfl (by decide)) (by simp)
  have hvau : "-vf" ∉ audioArgs s :=
    not_mem_audioArgs _ _ (by simp) (by simp) (by simp) (by simp) (by simp)
  have hvdu : "-vf" ∉ durationArgs s :=
    not_mem_durationArgs _ _ (by simp) (by simp)
  have hvout : ("-vf" : String) ≠ outputFileArg s :=
    ne_outputFileArg s _ (by decide)
  have hvfilt : cropFilterStr s ≠ "-vf" :=
    ne_of_heads _ _ 'c' '-' tf ['v', 'f'] htf rfl (by decide)
  by_cases hc : s.crop_top ≠ 0 ∨ s.crop_bottom ≠ 0 ∨ s.crop_left ≠ 0
      ∨ s.crop_right ≠ 0
  · have hcrop : cropArgs s = ["-vf", cropFilterStr s] := by
      rw [cropArgs, if_pos hc]
    have hcmd : ["ffmpeg", "-y"] ++ ia ++ cropArgs s ++ videoCodecArgs s
        ++ rateArgs s ++ audioArgs s ++ ["-f", "webm"] ++ durationArgs s
        ++ [outputFileArg s]
        = ("ffmpeg" :: "-y" :: ia) ++ "-vf" :: cropFilterStr s ::
          (videoCodecArgs s ++ rateArgs s ++ audioArgs s ++ ["-f", "webm"]
            ++ durationArgs s ++ [outputFileArg s]) := by
      rw [hcrop]
      simp [List.append_assoc]
    refine ⟨⟨fun _ => hc, fun _ => ?_⟩, fun _ => ?_, fun x hx => ?_⟩
    · rw [hcmd]
      exact List.mem_append_right _ (List.mem_cons_self _ _)
    · exact ⟨("ffmpeg" :: "-y" :: ia), _, hcmd⟩
    · rw [hcmd] at hx
      refine adjPair_unique ?_ ?_ hvfilt hx
      · simp [hvia]
      · simp [List.mem_append, hvvc, hvrt, hvau, hvdu, hvout]
  · have hcrop : cropArgs s = [] := by
      rw [cropArgs, if_neg hc]
    have hnm : "-vf" ∉ ["ffmpeg", "-y"] ++ ia ++ cropArgs s ++ videoCodecArgs s
        ++ rateArgs s ++ audioArgs s ++ ["-f", "webm"] ++ durationArgs s
        ++ [outputFileArg s] := by
      simp [hcrop, List.mem_append, hvia, hvvc, hvrt, hvau, hvdu, hvout]
    exact ⟨⟨fun hm => absurd hm hnm, fun hh => absurd hh hc⟩,
      fun hh => absurd hh hc,
      fun x hx => absurd hx (not_adjPair_of_not_mem hnm)⟩

/-- A filesystem on which every path exists. -/
def oneFileOnDisk : String → Bool := fun _ => true

/-- Concrete state for the C3 witness: crop top 10, left 20, VP9/Opus,
quality 30, bitrate 0. -/
def exampleCropState : AppState :=
  ⟨"/videos/in.mp4", 10, 0, 20, 0, "VP9", "Opus", 30, 0, "/tmp"⟩

/-- The command the builder produces for `exampleCropState` on Linux. -/
def exampleCropCmd : List String :=
  ["ffmpeg", "-y", "-i", "/videos/in.mp4", "-vf", "crop=iw-20-0:ih-10-0:20:10",
    "-c:v", "libvpx-vp9", "-row-mt", "1", "-tile-columns", "2", "-crf", "30",
    "-b:v", "0", "-c:a", "libopus", "-b:a", "128k", "-f", "webm",
    "/tmp/in_cropped.webm"]

/-- Witness for C3 at a concrete state with a non-zero crop. -/
theorem crop_filter_iff_nonzero_witness :
    build_ffmpeg_command "linux" oneFileOnDisk exampleCropState
      = some exampleCropCmd
    ∧ ("-vf" ∈ exampleCropCmd ↔
      (exampleCropState.crop_top ≠ 0 ∨ exampleCropState.crop_bottom ≠ 0
        ∨ exampleCropState.crop_left ≠ 0 ∨ exampleCropState.crop_right ≠ 0)) :=
  ⟨by decide,
    (crop_filter_iff_nonzero "linux" oneFileOnDisk exampleCropState
      exampleCropCmd (by decide) (by decide)).1⟩

/-! ## Claim C5 -/

/-- C5: when `bitrate > 0` the built argument list carries
`-b:v <bitrate>k` and no `-crf` flag; when `bitrate = 0` it carries
`-crf <quality>` and, if the video codec is VP9, additionally `-b:v 0`,
and in that mode no `-b:v <N>k` argument occurs.  (The hypotheses that the
source string differs from the two flags hold for every real source.) -/
theorem rate_control_selection (platform : String)
    (fileOnDisk : String → Bool) (s : AppState) (cmd : List String)
    (hb : build_ffmpeg_command platform fileOnDisk s = some cmd)
    (h1 : s.current_source ≠ "-b:v") (h2 : s.current_source ≠ "-crf") :
    (0 < s.bitrate →
      adjPair "-b:v" (Nat.repr s.bitrate ++ "k") cmd ∧ "-crf" ∉ cmd)
    ∧ (s.bitrate = 0 →
      adjPair "-crf" (Nat.repr s.quality) cmd
      ∧ (s.video_codec = "VP9" → adjPair "-b:v" "0" cmd)
      ∧ (∀ x, adjPair "-b:v" x cmd → x = "0")
      ∧ (∀ n : ℕ, ¬adjPair "-b:v" (Nat.repr n ++ "k") cmd)) := by
  obtain ⟨ia, hia, rfl⟩ := build_some_eq hb
  obtain ⟨tf, htf⟩ := cropFilterStr_head s
  have hbia : "-b:v" ∉ ia :=
    not_mem_inputArgs hia (by simp) (by simp) (by simp) (by simp) (Ne.symm h1)
  have hbvc : "-b:v" ∉ videoCodecArgs s :=
    not_mem_videoCodecArgs _ _ (by simp) (by simp) (by simp) (by simp) (by simp)
      (by simp) (by simp)
  have hbcr : "-b:v" ∉ cropArgs s :=
    not_mem_cropArgs _ _ (by simp)
      (ne_of_heads _ _ '-' 'c' ['b', ':', 'v'] tf rfl htf (by decide))
  have hbau : "-b:v" ∉ audioArgs s :=
    not_mem_audioArgs _ _ (by simp) (by simp) (by simp) (by simp) (by simp)
  have hbdu : "-b:v" ∉ durationArgs s :=
    not_mem_durationArgs _ _ (by simp) (by simp)
  have hbout : ("-b:v" : String) ≠ outputFileArg s :=
    ne_outputFileArg s _ (by decide)
  have hcia : "-crf" ∉ ia :=
    not_mem_inputArgs hia (by simp) (by simp) (by simp) (by simp) (Ne.symm h2)
  have hcvc : "-crf" ∉ videoCodecArgs s :=
    not_mem_videoCodecArgs _ _ (by simp) (by simp) (by simp) (by simp) (by simp)
      (by simp) (by simp)
  have hccr : "-crf" ∉ cropArgs s :=
    not_mem_cropArgs _ _ (by simp)
      (ne_of_heads _ _ '-' 'c' ['c', 'r', 'f'] tf rfl htf (by decide))
  have hcau : "-crf" ∉ audioArgs s :=
    not_mem_audioArgs _ _ (by simp) (by simp) (by simp) (by simp) (by simp)
  have hcdu : "-crf" ∉ durationArgs s :=
    not_mem_durationArgs _ _ (by simp) (by simp)
  have hcout : ("-crf" : String) ≠ outputFileArg s :=
    ne_outputFileArg s _ (by decide)
  have hqne : ("-b:v" : String) ≠ Nat.repr s.quality :=
    ne_repr _ '-' ['b', ':', 'v'] rfl (by decide)
  refine ⟨fun hbr => ?_, fun hb0 => ?_⟩
  · have hrate : rateArgs s = ["-b:v", Nat.repr s.bitrate ++ "k"] := by
      rw [rateArgs, if_pos hbr]
    constructor
    · refine ⟨["ffmpeg", "-y"] ++ ia ++ cropArgs s ++ videoCodecArgs s,
        audioArgs s ++ ["-f", "webm"] ++ durationArgs s ++ [outputFileArg s], ?_⟩
      rw [hrate]
      simp [List.append_assoc]
    · intro hm
      have hkne : ("-crf" : String) ≠ Nat.repr s.bitrate ++ "k" :=
        ne_repr_append _ '-' ['c', 'r', 'f'] rfl (by decide)
      simp [hrate, List.mem_append, hcia, hcvc, hccr, hcau, hcdu, hcout,
        hkne] at hm
  · have hrate : rateArgs s = ["-crf", Nat.repr s.quality]
        ++ (if strLower s.video_codec = "vp9" then ["-b:v", "0"] else []) := by
      rw [rateArgs, if_neg (by omega)]
    have huni : ∀ x, adjPair "-b:v" x (["ffmpeg", "-y"] ++ ia ++ cropArgs s
        ++ videoCodecArgs s ++ rateArgs s ++ audioArgs s ++ ["-f", "webm"]
        ++ durationArgs s ++ [outputFileArg s]) → x = "0" := by
      intro x hx
      by_cases hlow : strLower s.video_codec = "vp9"
      · have hcmd : ["ffmpeg", "-y"] ++ ia ++ cropArgs s ++ videoCodecArgs s
            ++ rateArgs s ++ audioArgs s ++ ["-f", "webm"] ++ durationArgs s
            ++ [outputFileArg s]
            = (["ffmpeg", "-y"] ++ ia ++ cropArgs s ++ videoCodecArgs s
                ++ ["-crf", Nat.repr s.quality])
              ++ "-b:v" :: "0" :: (audioArgs s ++ ["-f", "webm"]
                ++ durationArgs s ++ [outputFileArg s]) := by
          rw [hrate, if_pos hlow]
          simp [List.append_assoc]
        rw [hcmd] at hx
        refine adjPair_unique ?_ ?_ (by simp) hx
        · simp [List.mem_append, hbia, hbvc, hbcr, hqne]
        · simp [List.mem_append, hbau, hbdu, hbout]
      · have hrateB : rateArgs s = ["-crf", Nat.repr s.quality] := by
          rw [hrate, if_neg hlow, List.append_nil]
        have hnm : "-b:v" ∉ ["ffmpeg", "-y"] ++ ia ++ cropArgs s
            ++ videoCodecArgs s ++ rateArgs s ++ audioArgs s ++ ["-f", "webm"]
            ++ durationArgs s ++ [outputFileArg s] := by
          simp [hrateB, List.mem_append, hbia, hbvc, hbcr, hbau, hbdu, hbout,
            hqne]
        exact absurd hx (not_adjPair_of_not_mem hnm)
    refine ⟨?_, fun hv9 => ?_, huni,
      fun n hp => absurd (huni _ hp) (repr_append_k_ne_zero_str n)⟩
    · refine ⟨["ffmpeg", "-y"] ++ ia ++ cropArgs s ++ videoCodecArgs s,
        (if strLower s.video_codec = "vp9" then ["-b:v", "0"] else [])
          ++ audioArgs s ++ ["-f", "webm"] ++ durationArgs s
          ++ [outputFileArg s], ?_⟩
      rw [hrate]
      simp [List.append_assoc]
    · have hlow : strLower s.video_codec = "vp9" := by rw [hv9]; rfl
      refine ⟨["ffmpeg", "-y"] ++ ia ++ cropArgs s ++ videoCodecArgs s
          ++ ["-crf", Nat.repr s.quality],
        audioArgs s ++ ["-f", "webm"] ++ durationArgs s
          ++ [outputFileArg s], ?_⟩
      rw [hrate, if_pos hlow]
      simp [List.append_assoc]

/-- Concrete state for the C5 witness: bitrate 0, quality 30, VP9 (the
spec's example). -/
def exampleRateState : AppState :=
  ⟨"/videos/clip.mkv", 0, 0, 0, 0, "VP9", "Opus", 30, 0, "/out"⟩

/-- The command the builder produces for `exampleRateState` on Linux. -/
def exampleRateCmd : List String :=
  ["ffmpeg", "-y", "-i", "/videos/clip.mkv", "-c:v", "libvpx-vp9", "-row-mt",
    "1", "-tile-columns", "2", "-crf", "30", "-b:v", "0", "-c:a", "libopus",
    "-b:a", "128k", "-f", "webm", "/out/clip_cropped.webm"]

/-- Witness for C5 at the spec's example: bitrate 0, quality 30, VP9 yields
`-crf 30` and `-b:v 0`. -/
theorem rate_control_selection_witness :
    exampleRateState.bitrate = 0
    ∧ adjPair "-crf" (Nat.repr exampleRateState.quality) exampleRateCmd
    ∧ adjPair "-b:v" "0" exampleRateCmd :=
  ⟨rfl,
    ((rate_control_selection "linux" oneFileOnDisk exampleRateState
      exampleRateCmd (by decide) (by decide) (by decide)).2 rfl).1,
    (((rate_control_selection "linux" oneFileOnDisk exampleRateState
      exampleRateCmd (by decide) (by decide) (by decide)).2 rfl).2.1 rfl)⟩

/-! ## ConversionThread.run terminal reporting (src/cropcast.py lines 196-209) -/

/-- Python `str(i)` for an arbitrary int (as interpolated by an f-string). -/
def pyIntRepr (i : ℤ) : String :=
  if i < 0 then "-" ++ Nat.repr i.natAbs else Nat.repr i.toNat

/-- The `(success, message)` pair emitted through the `finished` signal as
a function of the subprocess exit code (lines 201-206). -/
def conversionFinished (code : ℤ) : Bool × String :=
  if code = 0 then (true, "Conversion completed successfully")
  else if code = -15 then (false, "Conversion stopped by user")
  else (false, "Conversion failed with code " ++ pyIntRepr code)

/-! ## Claim C6 -/

/-- C6: exit code 0 reports success; the termination-signal sentinel
`-15` reports the distinct cancelled outcome ("stopped by user"); any other
non-zero code reports failure with the code embedded in the message; the
three branch conditions are mutually exclusive and exhaustive over exit
codes, and the three reported values are pairwise distinct. -/
theorem conversion_exit_code_outcomes (c : ℤ) :
    (c = 0 → conversionFinished c = (true, "Conversion completed successfully"))
    ∧ (c = -15 → conversionFinished c = (false, "Conversion stopped by user"))
    ∧ (c ≠ 0 → c ≠ -15 →
        conversionFinished c
          = (false, "Conversion failed with code " ++ pyIntRepr c))
    ∧ (c = 0 ∨ c = -15 ∨ (c ≠ 0 ∧ c ≠ -15))
    ∧ ((true, "Conversion completed successfully")
        ≠ ((false, "Conversion stopped by user") : Bool × String))
    ∧ (∀ x : String, ((false, "Conversion failed with code " ++ x) : Bool × String)
        ≠ (true, "Conversion completed successfully"))
    ∧ (∀ x : String, ((false, "Conversion failed with code " ++ x) : Bool × String)
        ≠ (false, "Conversion stopped by user")) := by
  refine ⟨fun h => ?_, fun h => ?_, fun h1 h2 => ?_, by omega, by simp, ?_, ?_⟩
  · rw [conversionFinished, if_pos h]
  · rw [conversionFinished, if_neg (by omega), if_pos h]
  · rw [conversionFinished, if_neg h1, if_neg h2]
  · intro x h
    exact absurd (congrArg Prod.fst h) (by simp)
  · intro x h
    have hs := congrArg Prod.snd h
    simp only at hs
    have hlen := congrArg (fun u => u.data.length) hs
    simp [str_data_append] at hlen

/-- Witness for C6 at exit code 7 (an ordinary failure). -/
theorem conversion_exit_code_outcomes_witness :
    (7 : ℤ) ≠ 0
    ∧ conversionFinished 7
        = (false, "Conversion failed with code " ++ pyIntRepr 7) :=
  ⟨by decide, (conversion_exit_code_outcomes 7).2.2.1 (by decide) (by decide)⟩

/-! ## Settings persistence (src/cropcast.py lines 912-978)

The settings JSON document has eight fields, all optional on load
(`settings.get(..., default)`).  `QSpinBox.setValue` clamps the written
value into the box's configured range, which `spinClamp` makes explicit.
The filesystem, the detected device list (the combo box's item data) and
`str(Path.home())` are parameters.
-/

structure UIState where
  crop_top : ℤ
  crop_bottom : ℤ
  crop_left : ℤ
  crop_right : ℤ
  output_path : String
  quality : ℤ
  bitrate : ℤ
  current_source : Option String
  is_device_source : Bool

structure SettingsDoc where
  crop_top : Option ℤ
  crop_bottom : Option ℤ
  crop_left : Option ℤ
  crop_right : Option ℤ
  output_path : Option String
  source : Option String
  quality : Option ℤ
  bitrate : Option ℤ

/-- `QSpinBox.setValue` bounded by the box's `setRange(lo, hi)`. -/
def spinClamp (lo hi v : ℤ) : ℤ := max lo (min hi v)

/-- The state after `__init__` and `init_ui` (lines 238-244, 279-381):
crop spins 0, output folder `Path.home()`, quality 30, bitrate 0, no
source selected. -/
def initialState (home : String) : UIState :=
  ⟨0, 0, 0, 0, home, 30, 0, none, false⟩

/-- `CropCastApp.save_settings` (lines 959-978): every field is written. -/
def save_settings (st : UIState) : SettingsDoc :=
  ⟨some st.crop_top, some st.crop_bottom, some st.crop_left,
    some st.crop_right, some st.output_path, st.current_source,
    some st.quality, some st.bitrate⟩

/-- The numeric/path part of `load_settings` (lines 919-925): each spin
box is set (clamped) to the stored value or its default, the output folder
is taken verbatim or defaults to `Path.home()`. -/
def loadNumeric (d : SettingsDoc) (home : String) (st : UIState) : UIState :=
  { st with
    crop_top := spinClamp 0 4000 (d.crop_top.getD 0)
    crop_bottom := spinClamp 0 4000 (d.crop_bottom.getD 0)
    crop_left := spinClamp 0 4000 (d.crop_left.getD 0)
    crop_right := spinClamp 0 4000 (d.crop_right.getD 0)
    output_path := d.output_path.getD home
    quality := spinClamp 0 63 (d.quality.getD 30)
    bitrate := spinClamp 0 50000 (d.bitrate.getD 0) }

/-- The source-restoration part of `load_settings` (lines 927-953): a
falsy saved source is ignored; a device source is restored only when found
among the detected devices; a file source only when it exists on disk. -/
def loadSource (d : SettingsDoc) (fileOnDisk : String → Bool)
    (devices : List String) (st : UIState) : UIState :=
  match d.source with
  | none => st
  | some src =>
    if src = "" then st
    else if strStarts src "video=" || strStarts src "/dev/" then
      if src ∈ devices then
        { st with current_source := some src, is_device_source := true }
      else st
    else if fileOnDisk src then
      { st with current_source := some src, is_device_source := false }
    else st

/-- `CropCastApp.load_settings` (lines 912-957): `doc = none` models a
missing or unparsable settings file (the `except` path leaves the state
unchanged). -/
def load_settings (doc : Option SettingsDoc) (fileOnDisk : String → Bool)
    (devices : List String) (home : String) (st : UIState) : UIState :=
  match doc with
  | none => st
  | some d => loadSource d fileOnDisk devices (loadNumeric d home st)

theorem loadSource_crop_top (d : SettingsDoc) (fe : String → Bool)
    (devices : List String) (st : UIState) :
    (loadSource d fe devices st).crop_top = st.crop_top := by
  unfold loadSource
  cases d.source with
  | none => rfl
  | some src =>
      dsimp only
      split_ifs <;> rfl

theorem loadSource_crop_bottom (d : SettingsDoc) (fe : String → Bool)
    (devices : List String) (st : UIState) :
    (loadSource d fe devices st).crop_bottom = st.crop_bottom := by
  unfold loadSource
  cases d.source with
  | none => rfl
  | some src =>
      dsimp only
      split_ifs <;> rfl

theorem loadSource_crop_left (d : SettingsDoc) (fe : String → Bool)
    (devices : List String) (st : UIState) :
    (loadSource d fe devices st).crop_left = st.crop_left := by
  unfold loadSource
  cases d.source with
  | none => rfl
  | some src =>
      dsimp only
      split_ifs <;> rfl

theorem loadSource_crop_right (d : SettingsDoc) (fe : String → Bool)
    (devices : List String) (st : UIState) :
    (loadSource d fe devices st).crop_right = st.crop_right := by
  unfold loadSource
  cases d.source with
  | none => rfl
  | some src =>
      dsimp only
      split_ifs <;> rfl

theorem loadSource_output_path (d : SettingsDoc) (fe : String → Bool)
    (devices : List String) (st : UIState) :
    (loadSource d fe devices st).output_path = st.output_path := by
  unfold loadSource
  cases d.source with
  | none => rfl
  | some src =>
      dsimp only
      split_ifs <;> rfl

theorem loadSource_quality (d : SettingsDoc) (fe : String → Bool)
    (devices : List String) (st : UIState) :
    (loadSource d fe devices st).quality = st.quality := by
  unfold loadSource
  cases d.source with
  | none => rfl
  | some src =>
      dsimp only
      split_ifs <;> rfl

theorem loadSource_bitrate (d : SettingsDoc) (fe : String → Bool)
    (devices : List String) (st : UIState) :
    (loadSource d fe devices st).bitrate = st.bitrate := by
  unfold loadSource
  cases d.source with
  | none => rfl
  | some src =>
      dsimp only
      split_ifs <;> rfl

theorem loadSource_of_none (d : SettingsDoc) (fe : String → Bool)
    (devices : List String) (st : UIState) (hd : d.source = none) :
    loadSource d fe devices st = st := by
  unfold loadSource
  rw [hd]

theorem loadSource_restored (d : SettingsDoc) (fe : String → Bool)
    (devices : List String) (st : UIState) (src : String)
    (hd : d.source = some src) (hne : src ≠ "")
    (hdev : (strStarts src "video=" || strStarts src "/dev/") = true →
      src ∈ devices)
    (hfile : (strStarts src "video=" || strStarts src "/dev/") = false →
      fe src = true) :
    (loadSource d fe devices st).current_source = some src := by
  unfold loadSource
  rw [hd]
  dsimp only
  rw [if_neg hne]
  cases hpre : (strStarts src "video=" || strStarts src "/dev/") with
  | true =>
      rw [if_pos rfl, if_pos (hdev hpre)]
  | false =>
      rw [if_neg (by simp), if_pos (hfile hpre)]

theorem loadSource_dropped_file (d : SettingsDoc) (fe : String → Bool)
    (devices : List String) (st : UIState) (src : String)
    (hd : d.source = some src)
    (hpre : (strStarts src "video=" || strStarts src "/dev/") = false)
    (hfe : fe src = false) : loadSource d fe devices st = st := by
  unfold loadSource
  rw [hd]
  dsimp only
  by_cases he : src = ""
  · rw [if_pos he]
  · rw [if_neg he, if_neg (by simp [hpre]), if_neg (by simp [hfe])]

theorem loadSource_dropped_device (d : SettingsDoc) (fe : String → Bool)
    (devices : List String) (st : UIState) (src : String)
    (hd : d.source = some src)
    (hpre : (strStarts src "video=" || strStarts src "/dev/") = true)
    (hnin : src ∉ devices) : loadSource d fe devices st = st := by
  unfold loadSource
  rw [hd]
  dsimp only
  by_cases he : src = ""
  · rw [if_pos he]
  · rw [if_neg he, if_pos hpre, if_neg hnin]

/-! ## Claim C7 -/

/-- C7: saving the settings and reloading them restores identical crop
distances, output folder, source, quality and bitrate (the numeric
hypotheses are the spin-box range invariants, which hold for every value a
spin box can produce; the source hypothesis says the environment did not
change between save and load: a saved file source still exists and a saved
device source is still detected); every field absent from the loaded
document is replaced by its default (crop distances 0, output folder home,
quality 30, bitrate 0).  `load_settings` is a total Lean function, so no
exception escapes it. -/
theorem settings_round_trip (st : UIState) (fileOnDisk : String → Bool)
    (devices : List String) (home : String)
    (ht : 0 ≤ st.crop_top ∧ st.crop_top ≤ 4000)
    (hbm : 0 ≤ st.crop_bottom ∧ st.crop_bottom ≤ 4000)
    (hl : 0 ≤ st.crop_left ∧ st.crop_left ≤ 4000)
    (hr : 0 ≤ st.crop_right ∧ st.crop_right ≤ 4000)
    (hq : 0 ≤ st.quality ∧ st.quality ≤ 63)
    (hbr : 0 ≤ st.bitrate ∧ st.bitrate ≤ 50000)
    (hsrc : ∀ src, st.current_source = some src →
      src ≠ ""
      ∧ ((strStarts src "video=" || strStarts src "/dev/") = true →
          src ∈ devices)
      ∧ ((strStarts src "video=" || strStarts src "/dev/") = false →
          fileOnDisk src = true)) :
    ((load_settings (some (save_settings st)) fileOnDisk devices home
        (initialState home)).crop_top = st.crop_top
      ∧ (load_settings (some (save_settings st)) fileOnDisk devices home
        (initialState home)).crop_bottom = st.crop_bottom
      ∧ (load_settings (some (save_settings st)) fileOnDisk devices home
        (initialState home)).crop_left = st.crop_left
      ∧ (load_settings (some (save_settings st)) fileOnDisk devices home
        (initialState home)).crop_right = st.crop_right
      ∧ (load_settings (some (save_settings st)) fileOnDisk devices home
        (initialState home)).output_path = st.output_path
      ∧ (load_settings (some (save_settings st)) fileOnDisk devices home
        (initialState home)).current_source = st.current_source
      ∧ (load_settings (some (save_settings st)) fileOnDisk devices home
        (initialState home)).quality = st.quality
      ∧ (load_settings (some (save_settings st)) fileOnDisk devices home
        (initialState home)).bitrate = st.bitrate)
    ∧ (∀ st0 : UIState,
      (load_settings (some ⟨none, none, none, none, none, none, none, none⟩)
        fileOnDisk devices home st0).crop_top = 0
      ∧ (load_settings (some ⟨none, none, none, none, none, none, none, none⟩)
        fileOnDisk devices home st0).crop_bottom = 0
      ∧ (load_settings (some ⟨none, none, none, none, none, none, none, none⟩)
        fileOnDisk devices home st0).crop_left = 0
      ∧ (load_settings (some ⟨none, none, none, none, none, none, none, none⟩)
        fileOnDisk devices home st0).crop_right = 0
      ∧ (load_settings (some ⟨none, none, none, none, none, none, none, none⟩)
        fileOnDisk devices home st0).output_path = home
      ∧ (load_settings (some ⟨none, none, none, none, none, none, none, none⟩)
        fileOnDisk devices home st0).quality = 30
      ∧ (load_settings (some ⟨none, none, none, none, none, none, none, none⟩)
        fileOnDisk devices home st0).bitrate = 0) := by
  constructor
  · refine ⟨?_, ?_, ?_, ?_, ?_, ?_, ?_, ?_⟩
    · simp only [load_settings, loadSource_crop_top, loadNumeric,
        save_settings, Option.getD_some, spinClamp]
      omega
    · simp only [load_settings, loadSource_crop_bottom, loadNumeric,
        save_settings, Option.getD_some, spinClamp]
      omega
    · simp only [load_settings, loadSource_crop_left, loadNumeric,
        save_settings, Option.getD_some, spinClamp]
      omega
    · simp only [load_settings, loadSource_crop_right, loadNumeric,
        save_settings, Option.getD_some, spinClamp]
      omega
    · simp only [load_settings, loadSource_output_path, loadNumeric,
        save_settings, Option.getD_some]
    · cases hs : st.current_source with
      | none =>
          have hd : (save_settings st).source = none := by
            simp [save_settings, hs]
          simp only [load_settings]
          rw [loadSource_of_none _ _ _ _ hd]
          simp [loadNumeric, initialState]
      | some src =>
          obtain ⟨hne, hdev, hfile⟩ := hsrc src hs
          have hd : (save_settings st).source = some src := by
            simp [save_settings, hs]
          simp only [load_settings]
          rw [loadSource_restored _ _ _ _ _ hd hne hdev hfile]
    · simp only [load_settings, loadSource_quality, loadNumeric,
        save_settings, Option.getD_some, spinClamp]
      omega
    · simp only [load_settings, loadSource_bitrate, loadNumeric,
        save_settings, Option.getD_some, spinClamp]
      omega
  · intro st0
    refine ⟨?_, ?_, ?_, ?_, ?_, ?_, ?_⟩ <;>
      simp [load_settings, loadSource_crop_top, loadSource_crop_bottom,
        loadSource_crop_left, loadSource_crop_right, loadSource_output_path,
        loadSource_quality, loadSource_bitrate, loadNumeric, spinClamp]

/-- Concrete state for the C7 witness. -/
def exampleUIState : UIState :=
  ⟨10, 20, 30, 40, "/out", 25, 100, none, false⟩

/-- Witness for C7: the crop-top value survives a save/load round trip. -/
theorem settings_round_trip_witness :
    (0 ≤ exampleUIState.crop_top ∧ exampleUIState.crop_top ≤ 4000)
    ∧ (load_settings (some (save_settings exampleUIState)) oneFileOnDisk []
        "/home/u" (initialState "/home/u")).crop_top
      = exampleUIState.crop_top :=
  ⟨by decide,
    ((settings_round_trip exampleUIState oneFileOnDisk [] "/home/u"
      (by decide) (by decide) (by decide) (by decide) (by decide) (by decide)
      (fun src h => Option.noConfusion h)).1).1⟩

/-! ## Claim C8 -/

/-- C8: a persisted file source that no longer exists on disk at load time
is silently dropped (the current source stays unset); likewise a persisted
device source that is not in the detected device list. -/
theorem stale_source_dropped (d : SettingsDoc) (fileOnDisk : String → Bool)
    (devices : List String) (home : String) (src : String)
    (hd : d.source = some src) :
    (((strStarts src "video=" || strStarts src "/dev/") = false →
      fileOnDisk src = false →
      (load_settings (some d) fileOnDisk devices home
        (initialState home)).current_source = none))
    ∧ ((strStarts src "video=" || strStarts src "/dev/") = true →
      src ∉ devices →
      (load_settings (some d) fileOnDisk devices home
        (initialState home)).current_source = none) := by
  constructor
  · intro hpre hfe
    simp only [load_settings]
    rw [loadSource_dropped_file _ _ _ _ _ hd hpre hfe]
    simp [loadNumeric, initialState]
  · intro hpre hnin
    simp only [load_settings]
    rw [loadSource_dropped_device _ _ _ _ _ hd hpre hnin]
    simp [loadNumeric, initialState]

/-- A settings document whose saved source is a vanished file. -/
def staleDoc : SettingsDoc :=
  ⟨none, none, none, none, none, some "/gone/file.mp4", none, none⟩

/-- Witness for C8: a saved file source that no longer exists is dropped. -/
theorem stale_source_dropped_witness :
    staleDoc.source = some "/gone/file.mp4"
    ∧ (load_settings (some staleDoc) noFileOnDisk [] "/home/u"
        (initialState "/home/u")).current_source = none :=
  ⟨rfl,
    (stale_source_dropped staleDoc noFileOnDisk [] "/home/u" "/gone/file.mp4"
      rfl).1 (by decide) (by decide)⟩

/-! ## Claim C9 -/

/-- C9: after loading settings, every numeric field lies within its
configured widget bounds regardless of the values in the JSON document:
loaded values pass through the spin boxes, so each crop distance is
clamped into [0, 4000], quality into [0, 63] and bitrate into [0, 50000]. -/
theorem loaded_values_within_bounds (doc : Option SettingsDoc)
    (fileOnDisk : String → Bool) (devices : List String) (home : String) :
    (0 ≤ (load_settings doc fileOnDisk devices home
        (initialState home)).crop_top
      ∧ (load_settings doc fileOnDisk devices home
        (initialState home)).crop_top ≤ 4000)
    ∧ (0 ≤ (load_settings doc fileOnDisk devices home
        (initialState home)).crop_bottom
      ∧ (load_settings doc fileOnDisk devices home
        (initialState home)).crop_bottom ≤ 4000)
    ∧ (0 ≤ (load_settings doc fileOnDisk devices home
        (initialState home)).crop_left
      ∧ (load_settings doc fileOnDisk devices home
        (initialState home)).crop_left ≤ 4000)
    ∧ (0 ≤ (load_settings doc fileOnDisk devices home
        (initialState home)).crop_right
      ∧ (load_settings doc fileOnDisk devices home
        (initialState home)).crop_right ≤ 4000)
    ∧ (0 ≤ (load_settings doc fileOnDisk devices home
        (initialState home)).quality
      ∧ (load_settings doc fileOnDisk devices home
        (initialState home)).quality ≤ 63)
    ∧ (0 ≤ (load_settings doc fileOnDisk devices home
        (initialState home)).bitrate
      ∧ (load_settings doc fileOnDisk devices home
        (initialState home)).bitrate ≤ 50000) := by
  cases doc with
  | none => simp [load_settings, initialState]
  | some d =>
      simp only [load_settings, loadSource_crop_top, loadSource_crop_bottom,
        loadSource_crop_left, loadSource_crop_right, loadSource_quality,
        loadSource_bitrate, loadNumeric, spinClamp]
      omega
